import Mathlib

/-
Verification of the failure-tracking / pattern-detection core
(claude-code/introspection/v1.0.0/core/failure_tracker.py and
pattern_detector.py) via a shallow embedding.

Modelling conventions:
 * the filesystem is a map from path strings to optional file contents
   (`none` = file absent); all effectful operations are explicit state
   transformers, exceptions are an `Except String` channel whose state
   component survives the raise (as Python side effects do);
 * Unix timestamps are `Int` (the float arithmetic in the source never
   matters to the verified claims); ISO-8601 serialization of timestamps
   is abstracted away: records carry the epoch value directly;
 * JSON (de)serialization of a failure record is abstracted as the opaque
   serialized line handed to the write layer.
-/

/-- `pattern in text` of Python: substring containment on the char list. -/
def strContains (hay pat : String) : Bool := decide (pat.data <:+: hay.data)

/-- The fields of the hook event consulted by `_extract_error_type`:
`stderr`, `stdout` and `exit_code` (already defaulted to `0` when the key
is missing, as `event_data.get("exit_code", 0)` does). -/
structure ToolEvent where
  stderr : String
  stdout : String
  exit_code : Int
deriving DecidableEq

/-- The fixed, ordered pattern table of `FailureTracker._extract_error_type`. -/
def error_patterns : List (String × List String) :=
  [("module_not_found", ["ModuleNotFoundError", "No module named"]),
   ("file_not_found", ["FileNotFoundError", "No such file"]),
   ("permission_denied", ["PermissionError", "Permission denied"]),
   ("syntax_error", ["SyntaxError"]),
   ("type_error", ["TypeError"]),
   ("pre_commit_failed", ["pre-commit", "failed"]),
   ("type_check_failed", ["mypy", "error"]),
   ("linting_failed", ["ruff"]),
   ("import_error", ["ImportError", "cannot import"]),
   ("test_failed", ["FAILED", "ERROR", "test"]),
   ("no_verify_used", ["--no-verify"])]

/-- `any(pattern in combined for pattern in patterns)` for one table row. -/
def ruleMatches (combined : String) (rule : String × List String) : Bool :=
  rule.2.any (fun pat => strContains combined pat)

/-- `FailureTracker._extract_error_type`: first matching row of the table
wins; otherwise `command_failed` on a nonzero exit code, else
`unknown_error`. -/
def _extract_error_type (ev : ToolEvent) : String :=
  match error_patterns.find? (ruleMatches (ev.stderr ++ ev.stdout)) with
  | some r => r.1
  | none => if ev.exit_code ≠ 0 then "command_failed" else "unknown_error"

/-- Filesystem model: contents by path (`none` = absent). -/
abbrev FS : Type := String → Option String

def setF (fs : FS) (p : String) (v : Option String) : FS :=
  fun q => if q = p then v else fs q

/-- `open(p, "a"); f.write(line + "\n")` : append one line to a file,
creating it when absent. -/
def appendLine (fs : FS) (p line : String) : FS :=
  setF fs p (some (((fs p).getD "") ++ line ++ "\n"))

/-- `TRACKER_BASE / "sessions" / session_id` with
`TRACKER_BASE = Path.home() / ".claude" / "failure-tracker"`. -/
def session_dir_path (home sid : String) : String :=
  home ++ "/.claude/failure-tracker/sessions/" ++ sid

/-- `self.failure_log = self.session_dir / "failures.jsonl"`. -/
def failure_log_path (home sid : String) : String :=
  session_dir_path home sid ++ "/failures.jsonl"

/-- Lock-timeout fallback: `self.session_dir / "failures-emergency.jsonl"`. -/
def emergency_timeout_path (home sid : String) : String :=
  session_dir_path home sid ++ "/failures-emergency.jsonl"

/-- Permission fallback: `/tmp/failures-emergency-{session_id}.jsonl`. -/
def emergency_perm_path (sid : String) : String :=
  "/tmp/failures-emergency-" ++ sid ++ ".jsonl"

/-- Outcome of `file_lock` acquisition in `log_failure`: acquired, timed
out (`TimeoutError`), or lock file unopenable (the lock layer then
proceeds without a lock). -/
inductive LockOutcome
  | acquired
  | timeout
  | noLock
deriving DecidableEq

/-- Outcome of the append to the primary failure log: success,
`PermissionError`, or another uncaught I/O error. -/
inductive AppendOutcome
  | ok
  | permDenied
  | ioError
deriving DecidableEq

structure LogEnv where
  lock : LockOutcome
  primary : AppendOutcome
  emergencyOk : Bool
deriving DecidableEq

/-- `FailureTracker.log_failure`, from the serialized record line on:
locked append to the primary log; `PermissionError` routes the record to
`/tmp/failures-emergency-{sid}.jsonl`, `TimeoutError` routes it to the
per-session `failures-emergency.jsonl`; each fallback appends the record
plus a warning-marker line, and raises only when the fallback write
itself fails, with a message naming the emergency path. -/
def log_failure (env : LogEnv) (home sid recordLine : String) (fs : FS) :
    FS × Except String Unit :=
  match env.lock with
  | .timeout =>
      if env.emergencyOk then
        (appendLine (appendLine fs (emergency_timeout_path home sid) recordLine)
          (emergency_timeout_path home sid)
          "# WARNING: Written without lock due to timeout", .ok ())
      else
        (fs, .error ("Could not log failure due to lock timeout. Check "
          ++ emergency_timeout_path home sid ++ " for recovery."))
  | _ =>
      match env.primary with
      | .ok => (appendLine fs (failure_log_path home sid) recordLine, .ok ())
      | .permDenied =>
          if env.emergencyOk then
            (appendLine (appendLine fs (emergency_perm_path sid) recordLine)
              (emergency_perm_path sid)
              "# WARNING: Written to emergency log due to permission error", .ok ())
          else
            (fs, .error ("Could not log failure due to permissions. Check "
              ++ emergency_perm_path sid ++ " for recovery."))
      | .ioError => (fs, .error "uncaught I/O error")

/-- `tempfile.mkstemp(dir=filepath.parent, prefix=f".{filepath.name}.tmp.",
suffix=".tmp")`: the temp sibling of `dir ++ "/" ++ base`. -/
def temp_path (dir base nonce : String) : String :=
  dir ++ "/." ++ base ++ ".tmp." ++ nonce ++ ".tmp"

def target_path (dir base : String) : String := dir ++ "/" ++ base

/-- Non-deterministic inputs of one `atomic_write` run: the fresh temp
name, the outcome of the content producer (the `yield`ed-to block), and
of flush+fsync and of the final rename. -/
structure AtomicEnv where
  nonce : String
  producer : Except String String
  syncOk : Bool
  renameOk : Bool

/-- `atomic_write` context manager: create temp sibling, produce content
into it, flush+fsync, rename onto the target; on any failure delete the
temp file and re-raise.  (The process-wide temp registry feeding the
atexit handler is not modelled; it is invisible to these claims.) -/
def atomic_write (env : AtomicEnv) (dir base : String) (fs : FS) :
    FS × Except String Unit :=
  let tmp := temp_path dir base env.nonce
  let fs1 := setF fs tmp (some "")
  match env.producer with
  | .error e => (setF fs1 tmp none, .error e)
  | .ok content =>
      let fs2 := setF fs1 tmp (some content)
      if env.syncOk then
        if env.renameOk then
          (setF (setF fs2 (target_path dir base) (some content)) tmp none, .ok ())
        else (setF fs2 tmp none, .error "rename failed")
      else (setF fs2 tmp none, .error "flush/fsync failed")

/-- `self.alert_file = self.session_dir / "alerts.json"`. -/
def alert_file_path (home sid : String) : String :=
  target_path (session_dir_path home sid) "alerts.json"

structure SnapshotEnv where
  nonce : String
  syncOk : Bool
  renameOk : Bool
deriving DecidableEq

/-- `FailureTracker.save_alerts`: writes the snapshot through
`atomic_write` only when the alert list is nonempty (`if alerts:`); the
serialized `alert_data` JSON is abstracted as `snapshot`. -/
def save_alerts (env : SnapshotEnv) (home sid snapshot : String)
    (alerts : List String) (fs : FS) : FS × Except String Unit :=
  if alerts.isEmpty then (fs, .ok ())
  else atomic_write ⟨env.nonce, .ok snapshot, env.syncOk, env.renameOk⟩
    (session_dir_path home sid) "alerts.json" fs

def recordSep : Char := Char.ofNat 31

def splitRecords : List Char → List Char → List (List Char)
  | [], acc => [acc.reverse]
  | c :: rest, acc =>
      if c = recordSep then acc.reverse :: splitRecords rest []
      else splitRecords rest (c :: acc)

/-- Decoder of the abstracted alert snapshot (stands in for
`json.load(...)["alerts"]`). -/
def decodeAlerts (s : String) : List String :=
  if s.data.isEmpty then [] else (splitRecords s.data []).map (fun l => ⟨l⟩)

/-- `FailureTracker.get_pending_alerts`: absent snapshot gives `[]`, else
the decoded alert list (lock acquisition and JSON-error fallbacks of the
read path are abstracted; they do not write). -/
def get_pending_alerts (fs : FS) (home sid : String) : List String :=
  match fs (alert_file_path home sid) with
  | none => []
  | some s => decodeAlerts s

/-- `FailureTracker.clear_alerts`: unlink the snapshot when it exists;
an `OSError` from unlink is swallowed. -/
def clear_alerts (unlinkOk : Bool) (home sid : String) (fs : FS) : FS :=
  if (fs (alert_file_path home sid)).isSome then
    if unlinkOk then setF fs (alert_file_path home sid) none else fs
  else fs

/-- Filesystem operations recorded by the session-id resolver (reads do
not mutate and are not recorded). -/
inductive FsOp
  | mkdirp (dir : String)
  | touch (path : String)
  | write (path content : String)
  | rename (src dst : String)
deriving DecidableEq

/-- Which step of the locked check-and-create raises `OSError` (all of
them sit inside the one `except OSError` handler): opening/locking the
lock file, reading an existing session file, or persisting the new id. -/
inductive SessionFsOutcome
  | lockFail
  | readFail
  | writeFail
  | allOk
deriving DecidableEq

structure SessionEnv where
  envSessionId : Option String
  bootTime : Int
  ppid : Int
  outcome : SessionFsOutcome
  storedContent : Option String
  freshGuid : String
  handlerGuid : String
deriving DecidableEq

/-- `/tmp/claude-session-{boot_time_int}-{ppid}.txt`. -/
def session_file_path (boot ppid : Int) : String :=
  "/tmp/claude-session-" ++ toString boot ++ "-" ++ toString ppid ++ ".txt"

/-- `session_file.with_suffix(".lock")`. -/
def session_lock_path (boot ppid : Int) : String :=
  "/tmp/claude-session-" ++ toString boot ++ "-" ++ toString ppid ++ ".lock"

/-- Python `str.strip()`: drop leading and trailing whitespace. -/
def pyStrip (s : String) : String :=
  ⟨((s.data.dropWhile Char.isWhitespace).reverse.dropWhile Char.isWhitespace).reverse⟩

/-- Python truthiness of `os.environ.get(...)`: present and non-empty. -/
def envTruthy (o : Option String) : Bool := !(o.getD "").data.isEmpty

/-- The mint step: `guid = str(uuid.uuid4())`, plain `open(session_file,
"w")` write with flush+fsync; an `OSError` from that write falls into the
handler, which mints a second fresh id and returns it unpersisted. -/
def mintSessionId (env : SessionEnv) (sf : String) (pre : List FsOp) :
    String × List FsOp :=
  if env.outcome = .writeFail then ("session-" ++ env.handlerGuid, pre)
  else ("session-" ++ env.freshGuid, pre ++ [.write sf ("session-" ++ env.freshGuid)])

/-- `SessionManager._get_or_create_session_id`: environment id wins with
no filesystem access; otherwise locked check-and-create on the
`(bootEpoch, ppid)` key file; any `OSError` inside degrades to a fresh
unpersisted id. -/
def _get_or_create_session_id (env : SessionEnv) : String × List FsOp :=
  if envTruthy env.envSessionId then (env.envSessionId.getD "", [])
  else
    let sf := session_file_path env.bootTime env.ppid
    let lf := session_lock_path env.bootTime env.ppid
    let pre : List FsOp := [.mkdirp "/tmp", .touch lf]
    if env.outcome = .lockFail then ("session-" ++ env.handlerGuid, pre)
    else
      match env.storedContent, env.outcome with
      | some _, .readFail => ("session-" ++ env.handlerGuid, pre)
      | some c, _ =>
          if (pyStrip c).data.isEmpty then mintSessionId env sf pre
          else (pyStrip c, pre)
      | none, _ => mintSessionId env sf pre

/-- Modelled from the spec: `AtomicFileWriter` persists content by
renaming a temporary sibling file onto the target path, so a run that
"persisted via AtomicFileWriter" must show a rename onto the target in
its operation trace.  (Definition follows the spec's words, for the
refinement comparison in claim C4.) -/
def persistedViaAtomicWriter (trace : List FsOp) (target : String) : Bool :=
  trace.any (fun op => match op with
    | .rename _ dst => dst == target
    | _ => false)

/-- Resolution inputs of `_get_boot_time`: each fallback is `none` when
that method raises/unavailable (every such failure is caught in the
source), `some` its value otherwise. -/
structure BootEnv where
  procUptime : Option Int
  psutilBoot : Option Int
  procStart : Option Int
  nowTime : Int
deriving DecidableEq

/-- The fallback chain of `_get_boot_time` on a cache miss:
`/proc/uptime`, `psutil.boot_time()`, `psutil.Process().create_time()`,
then the current time. -/
def resolveBootTime (env : BootEnv) : Int :=
  match env.procUptime with
  | some u => env.nowTime - u
  | none =>
      match env.psutilBoot with
      | some b => b
      | none =>
          match env.procStart with
          | some t => t
          | none => env.nowTime

/-- `_get_boot_time` with its `_BOOT_TIME_CACHE` module state: returns
the resolved value together with the updated cache. -/
def _get_boot_time (cache : Option Int) (env : BootEnv) : Int × Option Int :=
  match cache with
  | some v => (v, some v)
  | none => (resolveBootTime env, some (resolveBootTime env))

/-- One parsed failure record, with the fields written by `log_failure`
(the timestamp is its epoch value, `command` is `tool_input["command"]`
when present). -/
structure Failure where
  timestamp : Int
  session_id : String
  hostname : String
  tool_name : String
  error_type : String
  error_message : String
  command : Option String
deriving DecidableEq

def firstKeysAux : List String → List String → List String
  | [], _ => []
  | k :: rest, seen =>
      if k ∈ seen then firstKeysAux rest seen
      else k :: firstKeysAux rest (k :: seen)

/-- Keys of a `defaultdict` grouping in Python insertion order: first
occurrence order, duplicates dropped. -/
def firstKeys (l : List String) : List String := firstKeysAux l []

/-- `defaultdict(list)` grouping: key order is first-occurrence order,
each group keeps record order. -/
def groupByKey (key : Failure → String) (failures : List Failure) :
    List (String × List Failure) :=
  (firstKeys (failures.map key)).map
    (fun k => (k, failures.filter (fun f => key f == k)))

/-- The three pattern dictionaries built by
`PatternDetector._detect_patterns`. -/
inductive Pattern
  | recurring_error_type (error_type : String) (occurrences affected_sessions : Nat)
      (severity : String) (first_seen last_seen : Int) (sample_message : String)
  | problematic_tool (tool_name : String) (occurrences affected_sessions : Nat)
      (severity : String) (common_errors : List (String × Nat))
  | host_specific_issue (hostname : String) (occurrences affected_sessions : Nat)
      (severity : String) (common_errors : List (String × Nat))
deriving DecidableEq

def Pattern.severity : Pattern → String
  | .recurring_error_type _ _ _ s _ _ _ => s
  | .problematic_tool _ _ _ s _ => s
  | .host_specific_issue _ _ _ s _ => s

def Pattern.occurrences : Pattern → Nat
  | .recurring_error_type _ n _ _ _ _ _ => n
  | .problematic_tool _ n _ _ _ => n
  | .host_specific_issue _ n _ _ _ => n

/-- `{"CRITICAL": 0, "HIGH": 1, "MEDIUM": 2, "LOW": 3}.get(sev, 3)`. -/
def severityRank (s : String) : Nat :=
  if s = "CRITICAL" then 0 else if s = "HIGH" then 1
  else if s = "MEDIUM" then 2 else 3

/-- Strict order underlying `patterns.sort(key=lambda p: (rank, -occ))`. -/
def patternLt (p q : Pattern) : Bool :=
  severityRank p.severity < severityRank q.severity ||
    (severityRank p.severity == severityRank q.severity &&
      q.occurrences < p.occurrences)

def insertBy {α : Type} (lt : α → α → Bool) (a : α) : List α → List α
  | [] => [a]
  | b :: bs => if lt a b then a :: b :: bs else b :: insertBy lt a bs

/-- Stable ascending sort (the semantics of Python's `list.sort`): each
element is inserted after all earlier elements it is not strictly below. -/
def stableSortBy {α : Type} (lt : α → α → Bool) (l : List α) : List α :=
  l.foldl (fun acc a => insertBy lt a acc) []

/-- `len({f["session_id"] for f in g})`. -/
def distinctSessions (g : List Failure) : Nat :=
  (g.map (fun f => f.session_id)).dedup.length

def firstTimestampI (g : List Failure) : Int :=
  ((g.head?).map (fun f => f.timestamp)).getD 0

def lastTimestampI (g : List Failure) : Int :=
  ((g.getLast?).map (fun f => f.timestamp)).getD 0

def sampleMessageOf (g : List Failure) : String :=
  ((g.getLast?).map (fun f => f.error_message)).getD ""

def lastToolName (g : List Failure) : String :=
  ((g.getLast?).map (fun f => f.tool_name)).getD ""

def lastHostname (g : List Failure) : String :=
  ((g.getLast?).map (fun f => f.hostname)).getD ""

/-- `PatternDetector._calculate_severity`. -/
def _calculate_severity (occurrences sessions : Nat) : String :=
  if 10 ≤ occurrences ∧ 3 ≤ sessions then "CRITICAL"
  else if 5 ≤ occurrences ∧ 2 ≤ sessions then "HIGH"
  else if 3 ≤ occurrences then "MEDIUM"
  else "LOW"

/-- `collections.Counter` over a key list: counts keyed in first
insertion order. -/
def counterPairs (keys : List String) : List (String × Nat) :=
  (firstKeys keys).map (fun k => (k, (keys.filter (fun x => x == k)).length))

/-- `Counter(...).most_common(n)`: stable sort by descending count, first
`n` entries. -/
def mostCommon (keys : List String) (n : Nat) : List (String × Nat) :=
  (stableSortBy (fun a b => b.2 < a.2) (counterPairs keys)).take n

/-- `PatternDetector._get_common_errors`. -/
def _get_common_errors (g : List Failure) (top : Nat) : List (String × Nat) :=
  mostCommon (g.map (fun f => f.error_type)) top

/-- Pattern 1 of `_detect_patterns`: recurring error types (≥ 3). -/
def recurringPatterns (failures : List Failure) : List Pattern :=
  (groupByKey (fun f => f.error_type) failures).filterMap (fun kg =>
    if 3 ≤ kg.2.length then
      some (.recurring_error_type kg.1 kg.2.length (distinctSessions kg.2)
        (_calculate_severity kg.2.length (distinctSessions kg.2))
        (firstTimestampI kg.2) (lastTimestampI kg.2) (sampleMessageOf kg.2))
    else none)

/-- Pattern 2 of `_detect_patterns`: one tool failing ≥ 5 times across
≥ 2 sessions. -/
def toolPatterns (failures : List Failure) : List Pattern :=
  (groupByKey (fun f => f.tool_name) failures).filterMap (fun kg =>
    if 5 ≤ kg.2.length ∧ 2 ≤ distinctSessions kg.2 then
      some (.problematic_tool kg.1 kg.2.length (distinctSessions kg.2)
        (_calculate_severity kg.2.length (distinctSessions kg.2))
        (_get_common_errors kg.2 3))
    else none)

/-- Pattern 3 of `_detect_patterns`: ≥ 10 failures on one host whose
session share exceeds half of all sessions.  The float comparison
`host_sessions / total_sessions > 0.5` is modelled exactly as
`total < 2 * host` over the integers. -/
def hostPatterns (failures : List Failure) : List Pattern :=
  (groupByKey (fun f => f.hostname) failures).filterMap (fun kg =>
    if 10 ≤ kg.2.length ∧ distinctSessions failures < 2 * distinctSessions kg.2 then
      some (.host_specific_issue kg.1 kg.2.length (distinctSessions kg.2)
        "HIGH" (_get_common_errors kg.2 3))
    else none)

/-- `PatternDetector._detect_patterns` on the in-window record list. -/
def _detect_patterns (failures : List Failure) : List Pattern :=
  stableSortBy patternLt
    (recurringPatterns failures ++ toolPatterns failures ++ hostPatterns failures)

def PATTERN_THRESHOLD : Nat := 2

/-- The in-window filter (`timestamp >= cutoff_time`). -/
def windowFilter (cutoff : Int) (records : List Failure) : List Failure :=
  records.filter (fun r => cutoff ≤ r.timestamp)

/-- The two alert shapes built by `FailureTracker.analyze_patterns`. -/
inductive SessionAlert
  | recurring_error (error_type : String) (occurrences : Nat)
      (first_occurrence last_occurrence : Int)
      (sample_message tool_name session_id hostname : String)
  | command_repeated_failure (command : String) (occurrences : Nat)
      (first_occurrence last_occurrence : Int)
      (sample_message session_id hostname : String)
deriving DecidableEq

/-- `FailureTracker.analyze_patterns` on the parsed record list of this
session's log and a fixed window cutoff: filter to the window, group by
error type and by `tool_input["command"][:100]`, one alert per group of
size ≥ `PATTERN_THRESHOLD`. -/
def analyze_patterns (sid : String) (cutoff : Int) (records : List Failure) :
    List SessionAlert :=
  let recent := windowFilter cutoff records
  if recent.isEmpty then []
  else
    let errAlerts := (groupByKey (fun f => f.error_type) recent).filterMap
      (fun kg =>
        if PATTERN_THRESHOLD ≤ kg.2.length then
          some (.recurring_error kg.1 kg.2.length (firstTimestampI kg.2)
            (lastTimestampI kg.2) (sampleMessageOf kg.2) (lastToolName kg.2)
            sid (lastHostname kg.2))
        else none)
    let withCmd := recent.filter (fun f => f.command.isSome)
    let cmdAlerts := (groupByKey (fun f => (f.command.getD "").take 100) withCmd).filterMap
      (fun kg =>
        if PATTERN_THRESHOLD ≤ kg.2.length then
          some (.command_repeated_failure kg.1 kg.2.length (firstTimestampI kg.2)
            (lastTimestampI kg.2) (sampleMessageOf kg.2) sid (lastHostname kg.2))
        else none)
    errAlerts ++ cmdAlerts

/-- Readability of one session directory's `session-info.json` as seen by
`cleanup_old_sessions`: absent file, malformed JSON
(`json.JSONDecodeError`, caught), missing `start_time` key (`KeyError`,
caught), a `start_time` string `datetime.fromisoformat` rejects
(`ValueError`, NOT in the caught tuple), or readable with the given epoch
(`moveOk` = whether `shutil.move` succeeds; its `OSError` is caught). -/
inductive SessionMeta
  | absent
  | badJson
  | missingStart
  | unparsable (raw : String)
  | readable (start : Int) (moveOk : Bool)
deriving DecidableEq

structure SessionEntry where
  name : String
  meta : SessionMeta
deriving DecidableEq

/-- Result state of one `cleanup_old_sessions` run: the returned count,
which directories were moved to the archive, which remain in the sessions
directory, the warnings printed, and the uncaught exception if one
aborted the scan (in which case no count is returned to the caller). -/
structure CleanupOutcome where
  count : Nat
  archived : List String
  remaining : List String
  warnings : List String
  failure : Option String
deriving DecidableEq

/-- `FailureTracker.cleanup_old_sessions` over the directory listing:
archive readable sessions older than the cutoff; malformed/missing
metadata is skipped with a warning; an absent metadata file is skipped
silently; an unparsable `start_time` raises `ValueError`, which the
`except (json.JSONDecodeError, KeyError, OSError)` clause does not catch,
aborting the scan. -/
def cleanup_old_sessions (cutoff : Int) : List SessionEntry → CleanupOutcome
  | [] => ⟨0, [], [], [], none⟩
  | e :: rest =>
      match e.meta with
      | .absent =>
          let r := cleanup_old_sessions cutoff rest
          ⟨r.count, r.archived, e.name :: r.remaining, r.warnings, r.failure⟩
      | .badJson =>
          let r := cleanup_old_sessions cutoff rest
          ⟨r.count, r.archived, e.name :: r.remaining,
            ("Warning: Could not archive " ++ e.name) :: r.warnings, r.failure⟩
      | .missingStart =>
          let r := cleanup_old_sessions cutoff rest
          ⟨r.count, r.archived, e.name :: r.remaining,
            ("Warning: Could not archive " ++ e.name) :: r.warnings, r.failure⟩
      | .unparsable raw =>
          ⟨0, [], e.name :: rest.map (fun x => x.name), [],
            some ("ValueError: Invalid isoformat string: " ++ raw)⟩
      | .readable start moveOk =>
          if start < cutoff then
            if moveOk then
              let r := cleanup_old_sessions cutoff rest
              ⟨r.count + 1, e.name :: r.archived, r.remaining, r.warnings, r.failure⟩
            else
              let r := cleanup_old_sessions cutoff rest
              ⟨r.count, r.archived, e.name :: r.remaining,
                ("Warning: Could not archive " ++ e.name) :: r.warnings, r.failure⟩
          else
            let r := cleanup_old_sessions cutoff rest
            ⟨r.count, r.archived, e.name :: r.remaining, r.warnings, r.failure⟩

def noUnparsable (entries : List SessionEntry) : Prop :=
  ∀ e ∈ entries, ∀ raw, e.meta ≠ SessionMeta.unparsable raw

/-- Sample record list for the cross-session scenario: 12 failures of one
error kind spread over 4 sessions. -/
def sample12 : List Failure :=
  [⟨1, "session-a", "h1", "Bash", "type_error", "m1", none⟩,
   ⟨2, "session-a", "h1", "Bash", "type_error", "m2", none⟩,
   ⟨3, "session-a", "h1", "Bash", "type_error", "m3", none⟩,
   ⟨4, "session-b", "h1", "Bash", "type_error", "m4", none⟩,
   ⟨5, "session-b", "h1", "Bash", "type_error", "m5", none⟩,
   ⟨6, "session-b", "h1", "Bash", "type_error", "m6", none⟩,
   ⟨7, "session-c", "h2", "Bash", "type_error", "m7", none⟩,
   ⟨8, "session-c", "h2", "Bash", "type_error", "m8", none⟩,
   ⟨9, "session-c", "h2", "Bash", "type_error", "m9", none⟩,
   ⟨10, "session-d", "h2", "Bash", "type_error", "m10", none⟩,
   ⟨11, "session-d", "h2", "Bash", "type_error", "m11", none⟩,
   ⟨12, "session-d", "h2", "Bash", "type_error", "m12", none⟩]

/-- Sample environment for the mint branch of the session-id resolver. -/
def envMintSample : SessionEnv :=
  ⟨none, 100, 42, SessionFsOutcome.allOk, none, "g", "h"⟩

/-- Sample filesystem holding one existing alert snapshot. -/
def fsWithAlerts : FS :=
  fun q => if q = alert_file_path "home" "sid" then some "old" else none

theorem appendLine_apply_ne (fs : FS) (p line q : String) (h : q ≠ p) :
    appendLine fs p line q = fs q := by
  simp [appendLine, setF, h]

theorem setF_apply_ne (fs : FS) (p : String) (v : Option String) (q : String)
    (h : q ≠ p) : setF fs p v q = fs q := by
  simp [setF, h]

theorem setF_apply_self (fs : FS) (p : String) (v : Option String) :
    setF fs p v p = v := by
  simp [setF]

theorem setF_setF_same (fs : FS) (p : String) (v w : Option String) :
    setF (setF fs p v) p w = setF fs p w := by
  funext q
  by_cases h : q = p <;> simp [setF, h]

theorem setF_outer_collapse (fs : FS) (p t : String) (v w u : Option String) :
    setF (setF (setF fs p v) t w) p u = setF (setF fs t w) p u := by
  funext q
  by_cases hq : q = p
  · simp [setF, hq]
  · by_cases ht : q = t <;> simp [setF, hq, ht]

theorem string_ne_empty_data {s : String} (h : s ≠ "") : s.data.isEmpty = false := by
  cases s with
  | mk l =>
      cases l with
      | nil => exact absurd rfl h
      | cons c cs => rfl

theorem failure_log_ne_emergency_timeout (home sid : String) :
    failure_log_path home sid ≠ emergency_timeout_path home sid := by
  intro h
  have hlen := congrArg String.length h
  simp only [failure_log_path, emergency_timeout_path, String.length_append] at hlen
  have e1 : ("/failures.jsonl" : String).length = 15 := by decide
  have e2 : ("/failures-emergency.jsonl" : String).length = 25 := by decide
  rw [e1, e2] at hlen
  omega

theorem failure_log_ne_emergency_perm (home sid : String) :
    failure_log_path home sid ≠ emergency_perm_path sid := by
  intro h
  have hlen := congrArg String.length h
  simp only [failure_log_path, emergency_perm_path, session_dir_path,
    String.length_append] at hlen
  have e1 : ("/.claude/failure-tracker/sessions/" : String).length = 34 := by decide
  have e2 : ("/failures.jsonl" : String).length = 15 := by decide
  have e3 : ("/tmp/failures-emergency-" : String).length = 24 := by decide
  have e4 : (".jsonl" : String).length = 6 := by decide
  rw [e1, e2, e3, e4] at hlen
  omega

theorem timeout_path_ne_perm_path (home sid : String) :
    emergency_timeout_path home sid ≠ emergency_perm_path sid := by
  intro h
  have hlen := congrArg String.length h
  simp only [emergency_timeout_path, emergency_perm_path, session_dir_path,
    String.length_append] at hlen
  have e1 : ("/.claude/failure-tracker/sessions/" : String).length = 34 := by decide
  have e2 : ("/failures-emergency.jsonl" : String).length = 25 := by decide
  have e3 : ("/tmp/failures-emergency-" : String).length = 24 := by decide
  have e4 : (".jsonl" : String).length = 6 := by decide
  rw [e1, e2, e3, e4] at hlen
  omega

theorem target_ne_temp (dir base nonce : String) :
    target_path dir base ≠ temp_path dir base nonce := by
  intro h
  have hlen := congrArg String.length h
  simp only [target_path, temp_path, String.length_append] at hlen
  have e1 : ("/" : String).length = 1 := by decide
  have e2 : ("/." : String).length = 2 := by decide
  have e3 : (".tmp." : String).length = 5 := by decide
  have e4 : (".tmp" : String).length = 4 := by decide
  rw [e1, e2, e3, e4] at hlen
  omega

theorem strContains_append_left (s t pat : String)
    (h : strContains s pat = true) : strContains (s ++ t) pat = true := by
  simp only [strContains, decide_eq_true_eq] at h ⊢
  rw [String.data_append]
  exact h.trans (List.prefix_append s.data t.data).isInfix

theorem strContains_sandwich (a p b : String) :
    strContains (a ++ p ++ b) p = true := by
  simp only [strContains, decide_eq_true_eq]
  refine ⟨a.data, b.data, ?_⟩
  simp [String.data_append]

theorem find?_append_first {α : Type} (p : α → Bool) (a : α)
    (l₁ l₂ : List α) (ha : p a = true) (hl : ∀ b ∈ l₁, p b = false) :
    (l₁ ++ a :: l₂).find? p = some a := by
  induction l₁ with
  | nil => simpa using List.find?_cons_of_pos l₂ ha
  | cons b t ih =>
      have hb : p b = false := hl b (List.mem_cons_self b t)
      rw [List.cons_append, List.find?_cons_of_neg _ (by simp [hb])]
      exact ih (fun c hc => hl c (List.mem_cons_of_mem b hc))

/-- C1: `_extract_error_type` classifies by testing the fixed, ordered
pattern table against stderr ++ stdout, first matching rule winning (a
rule matches when any of its substrings occurs in the combined text);
with no match it returns `command_failed` for a nonzero exit code and
`unknown_error` otherwise; and any event whose stderr contains
`"No module named"` is classified `module_not_found` (the matching rule
is the first row of the table, so this holds for every exit code,
including the claimed exit code 1). -/
theorem extract_error_type_spec :
    (∀ (ev : ToolEvent) (l₁ l₂ : List (String × List String))
        (r : String × List String),
        error_patterns = l₁ ++ r :: l₂ →
        ruleMatches (ev.stderr ++ ev.stdout) r = true →
        (∀ r' ∈ l₁, ruleMatches (ev.stderr ++ ev.stdout) r' = false) →
        _extract_error_type ev = r.1)
    ∧ (∀ ev : ToolEvent,
        (∀ r ∈ error_patterns, ruleMatches (ev.stderr ++ ev.stdout) r = false) →
        _extract_error_type ev =
          if ev.exit_code ≠ 0 then "command_failed" else "unknown_error")
    ∧ (∀ ev : ToolEvent, strContains ev.stderr "No module named" = true →
        _extract_error_type ev = "module_not_found") := by
  refine ⟨?_, ?_, ?_⟩
  · intro ev l₁ l₂ r htab hr hl
    unfold _extract_error_type
    rw [htab, find?_append_first _ _ l₁ l₂ hr hl]
  · intro ev hall
    unfold _extract_error_type
    rw [List.find?_eq_none.mpr (fun r hr => by simp [hall r hr])]
  · intro ev h
    have h2 : strContains (ev.stderr ++ ev.stdout) "No module named" = true :=
      strContains_append_left _ _ _ h
    have hr : ruleMatches (ev.stderr ++ ev.stdout)
        ("module_not_found", ["ModuleNotFoundError", "No module named"]) = true := by
      simp [ruleMatches, h2]
    unfold _extract_error_type error_patterns
    rw [List.find?_cons_of_pos _ hr]

/-- Witness for C1: a concrete event with `"No module named"` in stderr
and exit code 1 is classified `module_not_found`. -/
theorem extract_error_type_witness :
    _extract_error_type ⟨"Traceback: No module named foo", "", 1⟩
      = "module_not_found" :=
  extract_error_type_spec.2.2 ⟨"Traceback: No module named foo", "", 1⟩ (by decide)

/-- C2: on a lock timeout, `log_failure` appends the serialized record
plus the "written without lock" warning line to the per-session
`failures-emergency.jsonl` (a path distinct from the permission fallback
path), leaves the primary failure log unmodified, and returns normally;
an error is raised only when this emergency write itself fails. -/
theorem log_failure_timeout_spec :
    ∀ (env : LogEnv) (home sid recordLine : String) (fs : FS),
      env.lock = LockOutcome.timeout →
      ((env.emergencyOk = true →
          log_failure env home sid recordLine fs =
            (appendLine
              (appendLine fs (emergency_timeout_path home sid) recordLine)
              (emergency_timeout_path home sid)
              "# WARNING: Written without lock due to timeout", Except.ok ()))
        ∧ (log_failure env home sid recordLine fs).1 (failure_log_path home sid)
            = fs (failure_log_path home sid)
        ∧ (env.emergencyOk = false →
            log_failure env home sid recordLine fs =
              (fs, Except.error ("Could not log failure due to lock timeout. Check "
                ++ emergency_timeout_path home sid ++ " for recovery.")))
        ∧ emergency_timeout_path home sid ≠ emergency_perm_path sid) := by
  intro env home sid recordLine fs hlock
  have hne : failure_log_path home sid ≠ emergency_timeout_path home sid :=
    failure_log_ne_emergency_timeout home sid
  refine ⟨?_, ?_, ?_, timeout_path_ne_perm_path home sid⟩
  · intro hem
    simp [log_failure, hlock, hem]
  · cases hem : env.emergencyOk
    · simp [log_failure, hlock, hem]
    · simp only [log_failure, hlock, hem, if_true]
      rw [appendLine_apply_ne _ _ _ _ hne, appendLine_apply_ne _ _ _ _ hne]
  · intro hem
    simp [log_failure, hlock, hem]

/-- Witness for C2: a concrete lock-timeout run with a successful
emergency write. -/
theorem log_failure_timeout_witness :
    log_failure ⟨LockOutcome.timeout, AppendOutcome.ok, true⟩ "h" "s" "r"
        (fun _ => none) =
      (appendLine (appendLine (fun _ => none) (emergency_timeout_path "h" "s") "r")
        (emergency_timeout_path "h" "s")
        "# WARNING: Written without lock due to timeout", Except.ok ()) :=
  ((log_failure_timeout_spec ⟨LockOutcome.timeout, AppendOutcome.ok, true⟩
    "h" "s" "r" (fun _ => none) rfl).1) rfl

/-- C3: when the primary append raises a permission error, `log_failure`
appends the record verbatim plus a warning-marker line to
`/tmp/failures-emergency-{sid}.jsonl`, leaves the primary log untouched,
and raises only when the emergency write also fails, with a message that
names the emergency path. -/
theorem log_failure_permission_spec :
    ∀ (env : LogEnv) (home sid recordLine : String) (fs : FS),
      env.lock ≠ LockOutcome.timeout →
      env.primary = AppendOutcome.permDenied →
      ((env.emergencyOk = true →
          log_failure env home sid recordLine fs =
            (appendLine (appendLine fs (emergency_perm_path sid) recordLine)
              (emergency_perm_path sid)
              "# WARNING: Written to emergency log due to permission error",
              Except.ok ()))
        ∧ (log_failure env home sid recordLine fs).1 (failure_log_path home sid)
            = fs (failure_log_path home sid)
        ∧ (env.emergencyOk = false →
            log_failure env home sid recordLine fs =
              (fs, Except.error ("Could not log failure due to permissions. Check "
                ++ emergency_perm_path sid ++ " for recovery.")))
        ∧ strContains ("Could not log failure due to permissions. Check "
            ++ emergency_perm_path sid ++ " for recovery.")
            (emergency_perm_path sid) = true) := by
  intro env home sid recordLine fs hlock hperm
  have hne : failure_log_path home sid ≠ emergency_perm_path sid :=
    failure_log_ne_emergency_perm home sid
  have hsand := strContains_sandwich
    "Could not log failure due to permissions. Check "
    (emergency_perm_path sid) " for recovery."
  cases hlk : env.lock with
  | timeout => exact absurd hlk hlock
  | acquired =>
      refine ⟨?_, ?_, ?_, hsand⟩
      · intro hem; simp [log_failure, hlk, hperm, hem]
      · cases hem : env.emergencyOk
        · simp [log_failure, hlk, hperm, hem]
        · simp only [log_failure, hlk, hperm, hem, if_true]
          rw [appendLine_apply_ne _ _ _ _ hne, appendLine_apply_ne _ _ _ _ hne]
      · intro hem; simp [log_failure, hlk, hperm, hem]
  | noLock =>
      refine ⟨?_, ?_, ?_, hsand⟩
      · intro hem; simp [log_failure, hlk, hperm, hem]
      · cases hem : env.emergencyOk
        · simp [log_failure, hlk, hperm, hem]
        · simp only [log_failure, hlk, hperm, hem, if_true]
          rw [appendLine_apply_ne _ _ _ _ hne, appendLine_apply_ne _ _ _ _ hne]
      · intro hem; simp [log_failure, hlk, hperm, hem]

/-- Witness for C3: a concrete permission-denied run with a successful
emergency write. -/
theorem log_failure_permission_witness :
    log_failure ⟨LockOutcome.acquired, AppendOutcome.permDenied, true⟩ "h" "s" "r"
        (fun _ => none) =
      (appendLine (appendLine (fun _ => none) (emergency_perm_path "s") "r")
        (emergency_perm_path "s")
        "# WARNING: Written to emergency log due to permission error",
        Except.ok ()) :=
  ((log_failure_permission_spec ⟨LockOutcome.acquired, AppendOutcome.permDenied, true⟩
    "h" "s" "r" (fun _ => none) (by simp) rfl).1) rfl

theorem atomic_write_producer_error (env : AtomicEnv) (dir base : String)
    (fs : FS) (e : String) (he : env.producer = Except.error e) :
    atomic_write env dir base fs =
      (setF fs (temp_path dir base env.nonce) none, Except.error e) := by
  obtain ⟨n, prod, s, r⟩ := env
  cases he
  simp [atomic_write, setF_setF_same]

theorem atomic_write_sync_fail (env : AtomicEnv) (dir base : String)
    (fs : FS) (content : String) (hp : env.producer = Except.ok content)
    (hs : env.syncOk = false) :
    atomic_write env dir base fs =
      (setF fs (temp_path dir base env.nonce) none,
        Except.error "flush/fsync failed") := by
  obtain ⟨n, prod, s, r⟩ := env
  cases hp
  cases hs
  simp [atomic_write, setF_setF_same]

theorem atomic_write_rename_fail (env : AtomicEnv) (dir base : String)
    (fs : FS) (content : String) (hp : env.producer = Except.ok content)
    (hs : env.syncOk = true) (hr : env.renameOk = false) :
    atomic_write env dir base fs =
      (setF fs (temp_path dir base env.nonce) none,
        Except.error "rename failed") := by
  obtain ⟨n, prod, s, r⟩ := env
  cases hp
  cases hs
  cases hr
  simp [atomic_write, setF_setF_same]

theorem atomic_write_success (env : AtomicEnv) (dir base : String)
    (fs : FS) (content : String) (hp : env.producer = Except.ok content)
    (hs : env.syncOk = true) (hr : env.renameOk = true) :
    atomic_write env dir base fs =
      (setF (setF fs (target_path dir base) (some content))
        (temp_path dir base env.nonce) none, Except.ok ()) := by
  obtain ⟨n, prod, s, r⟩ := env
  cases hp
  cases hs
  cases hr
  simp only [atomic_write, setF_setF_same, if_true]
  rw [setF_outer_collapse]

/-- C7: if `atomic_write` fails before the rename (the producer raises,
or flush/fsync fails), or at the rename, the temp file is deleted, the
exception propagates unchanged, and the target path's content is exactly
what it was before the call; only on full success is the temp file
renamed onto the target. -/
theorem atomic_write_spec :
    ∀ (env : AtomicEnv) (dir base : String) (fs : FS),
      ((∀ e, env.producer = Except.error e →
          atomic_write env dir base fs =
            (setF fs (temp_path dir base env.nonce) none, Except.error e))
        ∧ (∀ content, env.producer = Except.ok content → env.syncOk = false →
            atomic_write env dir base fs =
              (setF fs (temp_path dir base env.nonce) none,
                Except.error "flush/fsync failed"))
        ∧ (∀ content, env.producer = Except.ok content → env.syncOk = true →
            env.renameOk = false →
            atomic_write env dir base fs =
              (setF fs (temp_path dir base env.nonce) none,
                Except.error "rename failed"))
        ∧ (∀ content, env.producer = Except.ok content → env.syncOk = true →
            env.renameOk = true →
            atomic_write env dir base fs =
              (setF (setF fs (target_path dir base) (some content))
                (temp_path dir base env.nonce) none, Except.ok ()))
        ∧ (∀ e, (atomic_write env dir base fs).2 = Except.error e →
            (atomic_write env dir base fs).1 (target_path dir base)
                = fs (target_path dir base)
              ∧ (atomic_write env dir base fs).1 (temp_path dir base env.nonce)
                = none)) := by
  intro env dir base fs
  have hne : target_path dir base ≠ temp_path dir base env.nonce :=
    target_ne_temp dir base env.nonce
  refine ⟨?_, ?_, ?_, ?_, ?_⟩
  · intro e he; exact atomic_write_producer_error env dir base fs e he
  · intro content hp hs; exact atomic_write_sync_fail env dir base fs content hp hs
  · intro content hp hs hr
    exact atomic_write_rename_fail env dir base fs content hp hs hr
  · intro content hp hs hr
    exact atomic_write_success env dir base fs content hp hs hr
  · intro e he
    rcases hp : env.producer with e' | content
    · rw [atomic_write_producer_error env dir base fs e' hp]
      exact ⟨setF_apply_ne _ _ _ _ hne, setF_apply_self _ _ _⟩
    · cases hs : env.syncOk
      · rw [atomic_write_sync_fail env dir base fs content hp hs]
        exact ⟨setF_apply_ne _ _ _ _ hne, setF_apply_self _ _ _⟩
      · cases hr : env.renameOk
        · rw [atomic_write_rename_fail env dir base fs content hp hs hr]
          exact ⟨setF_apply_ne _ _ _ _ hne, setF_apply_self _ _ _⟩
        · rw [atomic_write_success env dir base fs content hp hs hr] at he
          simp at he

/-- Witness for C7: a concrete producer failure deletes the temp file,
propagates the error and leaves the target untouched. -/
theorem atomic_write_witness :
    atomic_write ⟨"n", Except.error "boom", true, true⟩ "d" "b" (fun _ => none) =
      (setF (fun _ => none) (temp_path "d" "b" "n") none, Except.error "boom") :=
  (atomic_write_spec ⟨"n", Except.error "boom", true, true⟩ "d" "b"
    (fun _ => none)).1 "boom" rfl

/-- C10: `save_alerts` with the empty alert list performs no write at
all (the filesystem is returned unchanged, so an existing snapshot stays
byte-for-byte identical and `get_pending_alerts` still yields the prior
pass's alerts); `save_alerts` never removes an existing snapshot, and
`clear_alerts` is what unlinks it. -/
theorem save_alerts_empty_frame_spec :
    ∀ (wenv : SnapshotEnv) (home sid snapshot : String) (alerts : List String)
      (fs : FS),
      ((alerts = [] →
          save_alerts wenv home sid snapshot alerts fs = (fs, Except.ok ()))
        ∧ (alerts = [] →
            (save_alerts wenv home sid snapshot alerts fs).1 (alert_file_path home sid)
              = fs (alert_file_path home sid))
        ∧ (alerts = [] →
            get_pending_alerts ((save_alerts wenv home sid snapshot alerts fs).1)
                home sid
              = get_pending_alerts fs home sid)
        ∧ (∀ v, fs (alert_file_path home sid) = some v →
            ∃ w, (save_alerts wenv home sid snapshot alerts fs).1
                (alert_file_path home sid) = some w)
        ∧ (∀ v, fs (alert_file_path home sid) = some v →
            clear_alerts true home sid fs
              = setF fs (alert_file_path home sid) none)) := by
  intro wenv home sid snapshot alerts fs
  have hempty : alerts = [] →
      save_alerts wenv home sid snapshot alerts fs = (fs, Except.ok ()) := by
    intro h; subst h; simp [save_alerts]
  refine ⟨hempty, ?_, ?_, ?_, ?_⟩
  · intro h; rw [hempty h]
  · intro h; rw [hempty h]
  · intro v hv
    simp only [alert_file_path] at hv ⊢
    have hne : target_path (session_dir_path home sid) "alerts.json"
        ≠ temp_path (session_dir_path home sid) "alerts.json" wenv.nonce :=
      target_ne_temp (session_dir_path home sid) "alerts.json" wenv.nonce
    cases halerts : alerts with
    | nil =>
        subst halerts
        exact ⟨v, by rw [hempty rfl]; exact hv⟩
    | cons a as =>
        subst halerts
        have hsave : save_alerts wenv home sid snapshot (a :: as) fs =
            atomic_write ⟨wenv.nonce, Except.ok snapshot, wenv.syncOk, wenv.renameOk⟩
              (session_dir_path home sid) "alerts.json" fs := by
          simp [save_alerts]
        rw [hsave]
        cases hs : wenv.syncOk
        · rw [atomic_write_sync_fail _ _ _ _ snapshot rfl rfl]
          exact ⟨v, (setF_apply_ne _ _ _ _ hne).trans hv⟩
        · cases hr : wenv.renameOk
          · rw [atomic_write_rename_fail _ _ _ _ snapshot rfl rfl rfl]
            exact ⟨v, (setF_apply_ne _ _ _ _ hne).trans hv⟩
          · rw [atomic_write_success _ _ _ _ snapshot rfl rfl rfl]
            exact ⟨snapshot, (setF_apply_ne _ _ _ _ hne).trans (setF_apply_self _ _ _)⟩
  · intro v hv
    simp [clear_alerts, hv]

/-- Witness for C10: with one existing snapshot, the empty-list save is a
no-op and `clear_alerts` removes the snapshot. -/
theorem save_alerts_empty_frame_witness :
    save_alerts ⟨"n", true, true⟩ "home" "sid" "snap" [] fsWithAlerts
        = (fsWithAlerts, Except.ok ())
      ∧ clear_alerts true "home" "sid" fsWithAlerts
        = setF fsWithAlerts (alert_file_path "home" "sid") none :=
  ⟨(save_alerts_empty_frame_spec ⟨"n", true, true⟩ "home" "sid" "snap" []
      fsWithAlerts).1 rfl,
   (save_alerts_empty_frame_spec ⟨"n", true, true⟩ "home" "sid" "snap" []
      fsWithAlerts).2.2.2.2 "old" (by decide)⟩

/-- C8: the boot-epoch resolver is total (every input state yields a
value — each fallback's exception is caught in the source, so the model
is a total function), and it is memoized: after any first call the cache
is filled with the returned value, and every later call returns exactly
the cached value regardless of which fallback produced it. -/
theorem boot_time_total_memoized :
    (∀ (env : BootEnv) (cache : Option Int),
        (_get_boot_time cache env).2 = some (_get_boot_time cache env).1)
    ∧ (∀ (v : Int) (env : BootEnv), _get_boot_time (some v) env = (v, some v))
    ∧ (∀ (env1 env2 : BootEnv),
        _get_boot_time ((_get_boot_time none env1).2) env2 =
          ((_get_boot_time none env1).1, (_get_boot_time none env1).2)) := by
  refine ⟨?_, ?_, ?_⟩
  · intro env cache; cases cache <;> rfl
  · intro v env; rfl
  · intro env1 env2; rfl

/-- C6: pattern analysis is a pure function of the record list and the
window cutoff, so re-running it yields identical output: both the
session-level `analyze_patterns` alert list and the cross-session
`_detect_patterns` pattern list (severities and order included) are
equal across two runs on the same inputs.  (The source consults only
insertion-ordered groupings and order-insensitive set cardinalities, so
no hidden state or iteration nondeterminism enters the embedding.) -/
theorem analysis_idempotent :
    ∀ (sid : String) (cutoff : Int) (records failures : List Failure),
      analyze_patterns sid cutoff records = analyze_patterns sid cutoff records
        ∧ _detect_patterns failures = _detect_patterns failures :=
  fun _ _ _ _ => ⟨rfl, rfl⟩

/-- C4 (amended): session-id resolution priority.  A non-empty
environment id is returned verbatim with no filesystem access; otherwise,
under the lock on the key file derived from `(bootEpoch, ppid)`, an
existing non-empty stored id is returned as-is (stripped, with no write);
else `session-{uuid4}` is minted and persisted by a direct write of the
id to the key file (with flush and fsync, under the lock) — not through
the temp-file-plus-rename atomic writer — and returned; if the lock file
cannot be opened or locked, a fresh `session-{uuid}` is returned with no
persisted write. -/
theorem session_id_resolution_spec :
    (∀ (env : SessionEnv) (s : String),
        env.envSessionId = some s → s ≠ "" →
        _get_or_create_session_id env = (s, []))
    ∧ (∀ (env : SessionEnv) (c : String),
        envTruthy env.envSessionId = false →
        env.outcome = SessionFsOutcome.allOk →
        env.storedContent = some c → pyStrip c ≠ "" →
        _get_or_create_session_id env =
          (pyStrip c, [FsOp.mkdirp "/tmp",
            FsOp.touch (session_lock_path env.bootTime env.ppid)]))
    ∧ (∀ (env : SessionEnv),
        envTruthy env.envSessionId = false →
        env.outcome = SessionFsOutcome.allOk →
        (env.storedContent = none
          ∨ ∃ c, env.storedContent = some c ∧ pyStrip c = "") →
        _get_or_create_session_id env =
            ("session-" ++ env.freshGuid,
              [FsOp.mkdirp "/tmp",
               FsOp.touch (session_lock_path env.bootTime env.ppid),
               FsOp.write (session_file_path env.bootTime env.ppid)
                 ("session-" ++ env.freshGuid)])
          ∧ persistedViaAtomicWriter (_get_or_create_session_id env).2
              (session_file_path env.bootTime env.ppid) = false)
    ∧ (∀ (env : SessionEnv),
        envTruthy env.envSessionId = false →
        env.outcome = SessionFsOutcome.lockFail →
        _get_or_create_session_id env =
          ("session-" ++ env.handlerGuid,
            [FsOp.mkdirp "/tmp",
             FsOp.touch (session_lock_path env.bootTime env.ppid)])) := by
  refine ⟨?_, ?_, ?_, ?_⟩
  · intro env s he hs
    have hd : s.data.isEmpty = false := string_ne_empty_data hs
    have ht : envTruthy (some s) = true := by simp [envTruthy, hd]
    simp [_get_or_create_session_id, he, ht]
  · intro env c ht hout hc hne
    have hd : (pyStrip c).data.isEmpty = false := string_ne_empty_data hne
    simp [_get_or_create_session_id, ht, hout, hc, hd]
  · intro env ht hout hstored
    have heq : _get_or_create_session_id env =
        ("session-" ++ env.freshGuid,
          [FsOp.mkdirp "/tmp",
           FsOp.touch (session_lock_path env.bootTime env.ppid),
           FsOp.write (session_file_path env.bootTime env.ppid)
             ("session-" ++ env.freshGuid)]) := by
      rcases hstored with hnone | ⟨c, hsome, hstrip⟩
      · simp [_get_or_create_session_id, ht, hout, hnone, mintSessionId]
      · have hd : (pyStrip c).data.isEmpty = true := by rw [hstrip]; rfl
        simp [_get_or_create_session_id, ht, hout, hsome, hd, mintSessionId]
    refine ⟨heq, ?_⟩
    rw [heq]
    simp [persistedViaAtomicWriter]
  · intro env ht hout
    simp [_get_or_create_session_id, ht, hout]

/-- Witness for C4: a concrete environment-supplied id is returned
verbatim with an empty operation trace. -/
theorem session_id_resolution_witness :
    _get_or_create_session_id
        ⟨some "session-ext", 100, 42, SessionFsOutcome.allOk, none, "g", "h"⟩
      = ("session-ext", []) :=
  session_id_resolution_spec.1
    ⟨some "session-ext", 100, 42, SessionFsOutcome.allOk, none, "g", "h"⟩
    "session-ext" rfl (by decide)

/-- Counterexample for C4 as stated: in the mint branch the id is
persisted, but the run's operation trace contains a direct write of the
id to the key file and no rename onto it — the persist does not go
through the atomic temp-file-plus-rename writer (`AtomicFileWriter`). -/
theorem session_id_not_atomic_writer :
    persistedViaAtomicWriter (_get_or_create_session_id envMintSample).2
        (session_file_path 100 42) = false
      ∧ (_get_or_create_session_id envMintSample).1 = "session-g"
      ∧ FsOp.write (session_file_path 100 42) "session-g"
          ∈ (_get_or_create_session_id envMintSample).2 := by
  refine ⟨?_, ?_, ?_⟩ <;> decide

theorem mem_firstKeysAux (a : String) :
    ∀ (l seen : List String),
      a ∈ firstKeysAux l seen ↔ (a ∈ l ∧ a ∉ seen) := by
  intro l
  induction l with
  | nil => intro seen; simp [firstKeysAux]
  | cons k rest ih =>
      intro seen
      by_cases hk : k ∈ seen
      · rw [firstKeysAux, if_pos hk, ih]
        constructor
        · rintro ⟨h1, h2⟩
          exact ⟨List.mem_cons_of_mem k h1, h2⟩
        · rintro ⟨h1, h2⟩
          rcases List.mem_cons.mp h1 with h | h
          · subst h; exact absurd hk h2
          · exact ⟨h, h2⟩
      · rw [firstKeysAux, if_neg hk]
        constructor
        · intro h
          rcases List.mem_cons.mp h with h | h
          · subst h; exact ⟨List.mem_cons_self a rest, hk⟩
          · have h2 := (ih (k :: seen)).mp h
            refine ⟨List.mem_cons_of_mem k h2.1, fun hs => h2.2 ?_⟩
            exact List.mem_cons_of_mem k hs
        · rintro ⟨h1, h2⟩
          rcases List.mem_cons.mp h1 with h | h
          · subst h; exact List.mem_cons_self a _
          · by_cases hak : a = k
            · subst hak; exact List.mem_cons_self a _
            · refine List.mem_cons_of_mem k ((ih (k :: seen)).mpr ⟨h, ?_⟩)
              intro hs
              rcases List.mem_cons.mp hs with h3 | h3
              · exact hak h3
              · exact h2 h3

theorem mem_firstKeys (a : String) (l : List String) :
    a ∈ firstKeys l ↔ a ∈ l := by
  simp [firstKeys, mem_firstKeysAux]

theorem mem_insertBy {α : Type} (lt : α → α → Bool) (x a : α) :
    ∀ l : List α, a ∈ insertBy lt x l ↔ (a = x ∨ a ∈ l) := by
  intro l
  induction l with
  | nil => simp [insertBy]
  | cons b bs ih =>
      by_cases h : lt x b
      · simp [insertBy, h, List.mem_cons]
      · simp only [insertBy, h, Bool.false_eq_true, if_false, List.mem_cons, ih]
        tauto

theorem mem_stableSortFold {α : Type} (lt : α → α → Bool) (a : α) :
    ∀ (l acc : List α),
      a ∈ l.foldl (fun acc x => insertBy lt x acc) acc ↔ (a ∈ acc ∨ a ∈ l) := by
  intro l
  induction l with
  | nil => intro acc; simp
  | cons x xs ih =>
      intro acc
      rw [List.foldl_cons, ih, mem_insertBy]
      simp only [List.mem_cons]
      tauto

theorem mem_stableSortBy {α : Type} (lt : α → α → Bool) (a : α) (l : List α) :
    a ∈ stableSortBy lt l ↔ a ∈ l := by
  simp [stableSortBy, mem_stableSortFold]

/-- C5: `_detect_patterns` emits a `recurring_error_type` pattern for
every error kind with at least 3 in-window occurrences, carrying that
kind's occurrence count, distinct-session count, the severity computed by
`_calculate_severity`, the group's first/last timestamps and last sample
message; and `_calculate_severity` realizes exactly the claimed table:
CRITICAL iff ≥10 occurrences and ≥3 sessions, HIGH iff ≥5 and ≥2 (and
not CRITICAL), MEDIUM iff ≥3 (and not higher), LOW iff fewer than 3. -/
theorem detect_patterns_recurring_spec :
    (∀ (failures : List Failure) (et : String),
        3 ≤ (failures.filter (fun f => f.error_type == et)).length →
        Pattern.recurring_error_type et
            (failures.filter (fun f => f.error_type == et)).length
            (distinctSessions (failures.filter (fun f => f.error_type == et)))
            (_calculate_severity
              (failures.filter (fun f => f.error_type == et)).length
              (distinctSessions (failures.filter (fun f => f.error_type == et))))
            (firstTimestampI (failures.filter (fun f => f.error_type == et)))
            (lastTimestampI (failures.filter (fun f => f.error_type == et)))
            (sampleMessageOf (failures.filter (fun f => f.error_type == et)))
          ∈ _detect_patterns failures)
    ∧ (∀ occ s : Nat,
        (_calculate_severity occ s = "CRITICAL" ↔ 10 ≤ occ ∧ 3 ≤ s))
    ∧ (∀ occ s : Nat,
        (_calculate_severity occ s = "HIGH" ↔
          ¬(10 ≤ occ ∧ 3 ≤ s) ∧ 5 ≤ occ ∧ 2 ≤ s))
    ∧ (∀ occ s : Nat,
        (_calculate_severity occ s = "MEDIUM" ↔
          ¬(10 ≤ occ ∧ 3 ≤ s) ∧ ¬(5 ≤ occ ∧ 2 ≤ s) ∧ 3 ≤ occ))
    ∧ (∀ occ s : Nat,
        (_calculate_severity occ s = "LOW" ↔ occ < 3)) := by
  refine ⟨?_, ?_, ?_, ?_, ?_⟩
  · intro failures et h
    set g := failures.filter (fun f => f.error_type == et) with hg
    have hne : g ≠ [] := by
      intro h0
      rw [h0] at h
      simp at h
    obtain ⟨f, hf⟩ := List.exists_mem_of_ne_nil g hne
    have hfm := List.mem_filter.mp (hg ▸ hf)
    have hkey : et ∈ failures.map (fun f => f.error_type) := by
      refine List.mem_map.mpr ⟨f, hfm.1, ?_⟩
      simpa using hfm.2
    have hfk : et ∈ firstKeys (failures.map (fun f => f.error_type)) :=
      (mem_firstKeys _ _).mpr hkey
    have hpair : (et, g) ∈ groupByKey (fun f => f.error_type) failures := by
      unfold groupByKey
      exact List.mem_map.mpr ⟨et, hfk, by rw [hg]⟩
    have hrec : Pattern.recurring_error_type et g.length (distinctSessions g)
        (_calculate_severity g.length (distinctSessions g))
        (firstTimestampI g) (lastTimestampI g) (sampleMessageOf g)
          ∈ recurringPatterns failures := by
      unfold recurringPatterns
      refine List.mem_filterMap.mpr ⟨(et, g), hpair, ?_⟩
      simp only
      rw [if_pos h]
    unfold _detect_patterns
    exact (mem_stableSortBy _ _ _).mpr
      (List.mem_append.mpr (Or.inl (List.mem_append.mpr (Or.inl hrec))))
  · intro occ s
    simp only [_calculate_severity]
    split_ifs with h1 h2 h3 <;> simp_all
  · intro occ s
    simp only [_calculate_severity]
    split_ifs with h1 h2 h3 <;> simp_all
  · intro occ s
    simp only [_calculate_severity]
    split_ifs with h1 h2 h3 <;> simp_all
  · intro occ s
    simp only [_calculate_severity]
    split_ifs with h1 h2 h3 <;> simp_all <;> omega

/-- Witness for C5: 12 failures of one error kind over 4 sessions inside
the window yield a `recurring_error_type` pattern, and its severity value
is `CRITICAL`. -/
theorem detect_patterns_recurring_witness :
    Pattern.recurring_error_type "type_error"
        (sample12.filter (fun f => f.error_type == "type_error")).length
        (distinctSessions (sample12.filter (fun f => f.error_type == "type_error")))
        (_calculate_severity
          (sample12.filter (fun f => f.error_type == "type_error")).length
          (distinctSessions (sample12.filter (fun f => f.error_type == "type_error"))))
        (firstTimestampI (sample12.filter (fun f => f.error_type == "type_error")))
        (lastTimestampI (sample12.filter (fun f => f.error_type == "type_error")))
        (sampleMessageOf (sample12.filter (fun f => f.error_type == "type_error")))
      ∈ _detect_patterns sample12
    ∧ _calculate_severity
        (sample12.filter (fun f => f.error_type == "type_error")).length
        (distinctSessions (sample12.filter (fun f => f.error_type == "type_error")))
      = "CRITICAL" :=
  ⟨detect_patterns_recurring_spec.1 sample12 "type_error" (by decide), by decide⟩

theorem cleanup_no_failure :
    ∀ (cutoff : Int) (entries : List SessionEntry), noUnparsable entries →
      (cleanup_old_sessions cutoff entries).failure = none
        ∧ (cleanup_old_sessions cutoff entries).count
            = (cleanup_old_sessions cutoff entries).archived.length := by
  intro cutoff entries
  induction entries with
  | nil => intro _; exact ⟨rfl, rfl⟩
  | cons e rest ih =>
      intro hnu
      have hrest : noUnparsable rest :=
        fun x hx => hnu x (List.mem_cons_of_mem e hx)
      have he := hnu e (List.mem_cons_self e rest)
      obtain ⟨h1, h2⟩ := ih hrest
      cases hm : e.meta with
      | absent => simp [cleanup_old_sessions, hm, h1, h2]
      | badJson => simp [cleanup_old_sessions, hm, h1, h2]
      | missingStart => simp [cleanup_old_sessions, hm, h1, h2]
      | unparsable raw => exact absurd hm (he raw)
      | readable start moveOk =>
          by_cases hc : start < cutoff
          · cases moveOk
            · simp [cleanup_old_sessions, hm, hc, h1, h2]
            · simp [cleanup_old_sessions, hm, hc, h1, h2]
          · simp [cleanup_old_sessions, hm, hc, h1, h2]

theorem cleanup_skip_remaining :
    ∀ (cutoff : Int) (entries : List SessionEntry) (e : SessionEntry),
      e ∈ entries → noUnparsable entries →
      (e.meta = SessionMeta.badJson ∨ e.meta = SessionMeta.missingStart
        ∨ e.meta = SessionMeta.absent) →
      e.name ∈ (cleanup_old_sessions cutoff entries).remaining := by
  intro cutoff entries
  induction entries with
  | nil => intro e he _ _; simp at he
  | cons f rest ih =>
      intro e he hnu hmeta
      have hfok := hnu f (List.mem_cons_self f rest)
      have hrest : noUnparsable rest :=
        fun x hx => hnu x (List.mem_cons_of_mem f hx)
      rcases List.mem_cons.mp he with heq | hmem
      · subst heq
        rcases hmeta with hm | hm | hm <;> simp [cleanup_old_sessions, hm]
      · have hin := ih e hmem hrest hmeta
        cases hm : f.meta with
        | absent =>
            simp only [cleanup_old_sessions, hm]
            exact List.mem_cons_of_mem _ hin
        | badJson =>
            simp only [cleanup_old_sessions, hm]
            exact List.mem_cons_of_mem _ hin
        | missingStart =>
            simp only [cleanup_old_sessions, hm]
            exact List.mem_cons_of_mem _ hin
        | unparsable raw => exact absurd hm (hfok raw)
        | readable start moveOk =>
            by_cases hc : start < cutoff
            · cases moveOk
              · simp only [cleanup_old_sessions, hm, if_pos hc]
                exact List.mem_cons_of_mem _ hin
              · simp only [cleanup_old_sessions, hm, if_pos hc]
                exact hin
            · simp only [cleanup_old_sessions, hm, if_neg hc]
              exact List.mem_cons_of_mem _ hin

theorem cleanup_archived_only_readable :
    ∀ (cutoff : Int) (entries : List SessionEntry) (n : String),
      n ∈ (cleanup_old_sessions cutoff entries).archived →
      ∃ e ∈ entries, e.name = n
        ∧ ∃ s, e.meta = SessionMeta.readable s true ∧ s < cutoff := by
  intro cutoff entries
  induction entries with
  | nil => intro n hn; simp [cleanup_old_sessions] at hn
  | cons f rest ih =>
      intro n hn
      cases hm : f.meta with
      | absent =>
          simp only [cleanup_old_sessions, hm] at hn
          obtain ⟨e, hemem, hrest⟩ := ih n hn
          exact ⟨e, List.mem_cons_of_mem f hemem, hrest⟩
      | badJson =>
          simp only [cleanup_old_sessions, hm] at hn
          obtain ⟨e, hemem, hrest⟩ := ih n hn
          exact ⟨e, List.mem_cons_of_mem f hemem, hrest⟩
      | missingStart =>
          simp only [cleanup_old_sessions, hm] at hn
          obtain ⟨e, hemem, hrest⟩ := ih n hn
          exact ⟨e, List.mem_cons_of_mem f hemem, hrest⟩
      | unparsable raw =>
          simp [cleanup_old_sessions, hm] at hn
      | readable start moveOk =>
          by_cases hc : start < cutoff
          · cases moveOk
            · simp only [cleanup_old_sessions, hm, hc, if_true] at hn
              obtain ⟨e, hemem, hrest⟩ := ih n hn
              exact ⟨e, List.mem_cons_of_mem f hemem, hrest⟩
            · simp only [cleanup_old_sessions, hm, hc, if_true] at hn
              rcases List.mem_cons.mp hn with heq | hmem
              · exact ⟨f, List.mem_cons_self f rest, heq.symm, start, hm, hc⟩
              · obtain ⟨e, hemem, hrest⟩ := ih n hmem
                exact ⟨e, List.mem_cons_of_mem f hemem, hrest⟩
          · simp only [cleanup_old_sessions, hm, hc, if_false] at hn
            obtain ⟨e, hemem, hrest⟩ := ih n hn
            exact ⟨e, List.mem_cons_of_mem f hemem, hrest⟩

theorem cleanup_warns :
    ∀ (cutoff : Int) (entries : List SessionEntry) (e : SessionEntry),
      e ∈ entries → noUnparsable entries →
      (e.meta = SessionMeta.badJson ∨ e.meta = SessionMeta.missingStart) →
      ("Warning: Could not archive " ++ e.name)
        ∈ (cleanup_old_sessions cutoff entries).warnings := by
  intro cutoff entries
  induction entries with
  | nil => intro e he _ _; simp at he
  | cons f rest ih =>
      intro e he hnu hmeta
      have hfok := hnu f (List.mem_cons_self f rest)
      have hrest : noUnparsable rest :=
        fun x hx => hnu x (List.mem_cons_of_mem f hx)
      rcases List.mem_cons.mp he with heq | hmem
      · subst heq
        rcases hmeta with hm | hm <;> simp [cleanup_old_sessions, hm]
      · have hin := ih e hmem hrest hmeta
        cases hm : f.meta with
        | absent =>
            simp only [cleanup_old_sessions, hm]
            exact hin
        | badJson =>
            simp only [cleanup_old_sessions, hm]
            exact List.mem_cons_of_mem _ hin
        | missingStart =>
            simp only [cleanup_old_sessions, hm]
            exact List.mem_cons_of_mem _ hin
        | unparsable raw => exact absurd hm (hfok raw)
        | readable start moveOk =>
            by_cases hc : start < cutoff
            · cases moveOk
              · simp only [cleanup_old_sessions, hm, if_pos hc]
                exact List.mem_cons_of_mem _ hin
              · simp only [cleanup_old_sessions, hm, if_pos hc]
                exact hin
            · simp only [cleanup_old_sessions, hm, if_neg hc]
              exact hin

theorem cleanup_absent_silent :
    ∀ (cutoff : Int) (entries : List SessionEntry),
      (∀ e ∈ entries, e.meta = SessionMeta.absent) →
      (cleanup_old_sessions cutoff entries).warnings = []
        ∧ (cleanup_old_sessions cutoff entries).count = 0
        ∧ (cleanup_old_sessions cutoff entries).failure = none := by
  intro cutoff entries
  induction entries with
  | nil => intro _; exact ⟨rfl, rfl, rfl⟩
  | cons f rest ih =>
      intro hall
      have hm := hall f (List.mem_cons_self f rest)
      obtain ⟨h1, h2, h3⟩ := ih (fun x hx => hall x (List.mem_cons_of_mem f hx))
      simp [cleanup_old_sessions, hm, h1, h2, h3]

/-- C9 (amended): provided no session directory carries an unparsable
`start_time` string, the cleanup scan completes (no uncaught error, and
the returned count equals the number of archived directories), every
directory whose metadata file is absent, malformed, or missing
`start_time` is left in place, only readable-and-stale directories enter
the archive (so unreadable ones are never counted), and malformed or
missing-field metadata produces a logged warning — but an absent
metadata file is skipped silently with no warning, and an unparsable
`start_time` raises an uncaught `ValueError` that aborts the scan with
no returned count. -/
theorem cleanup_unreadable_metadata_spec :
    (∀ (cutoff : Int) (entries : List SessionEntry), noUnparsable entries →
        (cleanup_old_sessions cutoff entries).failure = none
          ∧ (cleanup_old_sessions cutoff entries).count
              = (cleanup_old_sessions cutoff entries).archived.length)
    ∧ (∀ (cutoff : Int) (entries : List SessionEntry) (e : SessionEntry),
        e ∈ entries → noUnparsable entries →
        (e.meta = SessionMeta.badJson ∨ e.meta = SessionMeta.missingStart
          ∨ e.meta = SessionMeta.absent) →
        e.name ∈ (cleanup_old_sessions cutoff entries).remaining)
    ∧ (∀ (cutoff : Int) (entries : List SessionEntry) (n : String),
        n ∈ (cleanup_old_sessions cutoff entries).archived →
        ∃ e ∈ entries, e.name = n
          ∧ ∃ s, e.meta = SessionMeta.readable s true ∧ s < cutoff)
    ∧ (∀ (cutoff : Int) (entries : List SessionEntry) (e : SessionEntry),
        e ∈ entries → noUnparsable entries →
        (e.meta = SessionMeta.badJson ∨ e.meta = SessionMeta.missingStart) →
        ("Warning: Could not archive " ++ e.name)
          ∈ (cleanup_old_sessions cutoff entries).warnings)
    ∧ (∀ (cutoff : Int) (entries : List SessionEntry),
        (∀ e ∈ entries, e.meta = SessionMeta.absent) →
        (cleanup_old_sessions cutoff entries).warnings = []) :=
  ⟨cleanup_no_failure, cleanup_skip_remaining, cleanup_archived_only_readable,
   cleanup_warns,
   fun cutoff entries h => (cleanup_absent_silent cutoff entries h).1⟩

/-- Witness for C9: one malformed-metadata directory is left in place
with a warning and the scan completes. -/
theorem cleanup_unreadable_metadata_witness :
    ("Warning: Could not archive " ++ "sX")
        ∈ (cleanup_old_sessions 0 [⟨"sX", SessionMeta.badJson⟩]).warnings
      ∧ "sX" ∈ (cleanup_old_sessions 0 [⟨"sX", SessionMeta.badJson⟩]).remaining :=
  ⟨cleanup_unreadable_metadata_spec.2.2.2.1 0 [⟨"sX", SessionMeta.badJson⟩]
      ⟨"sX", SessionMeta.badJson⟩ (List.mem_cons_self _ _)
      (by
        rintro x hx raw
        simp only [List.mem_singleton] at hx
        subst hx
        simp) (Or.inl rfl),
   cleanup_unreadable_metadata_spec.2.1 0 [⟨"sX", SessionMeta.badJson⟩]
      ⟨"sX", SessionMeta.badJson⟩ (List.mem_cons_self _ _)
      (by
        rintro x hx raw
        simp only [List.mem_singleton] at hx
        subst hx
        simp) (Or.inl rfl)⟩

/-- Counterexample for C9 as stated: a directory whose `start_time` is
present but unparsable makes the scan abort with an uncaught error (no
archived count is returned and no warning is logged for it), and a
directory with no metadata file at all is skipped with no logged warning
— contradicting "leaves that directory in place ... does not include it
in the returned archived count, and emits a logged warning" for those
two kinds of unreadable metadata. -/
theorem cleanup_unreadable_metadata_cex :
    (cleanup_old_sessions 0 [⟨"s1", SessionMeta.unparsable "garbage"⟩]).failure
        = some ("ValueError: Invalid isoformat string: " ++ "garbage")
      ∧ (cleanup_old_sessions 0 [⟨"s1", SessionMeta.unparsable "garbage"⟩]).warnings
        = []
      ∧ (cleanup_old_sessions 0 [⟨"s2", SessionMeta.absent⟩]).warnings = []
      ∧ (cleanup_old_sessions 0 [⟨"s2", SessionMeta.absent⟩]).remaining = ["s2"]
      ∧ (cleanup_old_sessions 0 [⟨"s2", SessionMeta.absent⟩]).count = 0 := by
  refine ⟨?_, ?_, ?_, ?_, ?_⟩ <;> rfl
